import Mathlib

/-!
Shallow embedding of `src/vulkano/src/instance/debug.rs` (vulkano's debug
callback subsystem): the severity/category flag codec, the native-callable
trampoline with its fault-isolation boundary, `DebugCallback::new` with its
extension precondition, the `errors_and_warnings` convenience constructor,
and the `From<Error>` conversion that panics.

Machine integers are modelled as `Nat` (the bitmask widths are never
exceeded by the single-bit constants involved).  Rust panics are modelled
explicitly: a value of type `Panics α` (or the `panicked`/`aborted`
constructors of result types) records the panic message.
-/

namespace Vulkano

namespace vk

/-- Modelled from the spec / the `vk` bindings crate (not part of the excerpt):
the fixed single-bit constant for the "verbose" severity. Values are the
standard Vulkan `VK_DEBUG_UTILS_MESSAGE_SEVERITY_*` constants. -/
def DEBUG_UTILS_MESSAGE_SEVERITY_VERBOSE_BIT_EXT : Nat := 0x0001

/-- Modelled from the spec / the `vk` bindings crate: "info" severity bit. -/
def DEBUG_UTILS_MESSAGE_SEVERITY_INFO_BIT_EXT : Nat := 0x0010

/-- Modelled from the spec / the `vk` bindings crate: "warning" severity bit. -/
def DEBUG_UTILS_MESSAGE_SEVERITY_WARNING_BIT_EXT : Nat := 0x0100

/-- Modelled from the spec / the `vk` bindings crate: "error" severity bit. -/
def DEBUG_UTILS_MESSAGE_SEVERITY_ERROR_BIT_EXT : Nat := 0x1000

/-- Modelled from the spec / the `vk` bindings crate: "general" category bit. -/
def DEBUG_UTILS_MESSAGE_TYPE_GENERAL_BIT_EXT : Nat := 0x01

/-- Modelled from the spec / the `vk` bindings crate: "validation" category bit. -/
def DEBUG_UTILS_MESSAGE_TYPE_VALIDATION_BIT_EXT : Nat := 0x02

/-- Modelled from the spec / the `vk` bindings crate: "performance" category bit. -/
def DEBUG_UTILS_MESSAGE_TYPE_PERFORMANCE_BIT_EXT : Nat := 0x04

/-- Modelled from the spec / the `vk` bindings crate: `vk::FALSE`, the fixed
"continue, do not abort the triggering call" status returned by the trampoline. -/
def FALSE : Nat := 0

end vk

/-- `MessageSeverity` (debug.rs lines 241-251): four independent booleans. -/
structure MessageSeverity where
  error : Bool
  warning : Bool
  information : Bool
  verbose : Bool
deriving DecidableEq

/-- `MessageType` (debug.rs lines 287-295): three independent booleans. -/
structure MessageType where
  general : Bool
  validation : Bool
  performance : Bool
deriving DecidableEq

/-- `MessageSeverity::none()` (debug.rs lines 276-283). -/
def MessageSeverity.none : MessageSeverity :=
  { error := false, warning := false, information := false, verbose := false }

/-- `MessageSeverity::errors()` (debug.rs lines 256-261). -/
def MessageSeverity.errors : MessageSeverity :=
  { MessageSeverity.none with error := true }

/-- `MessageSeverity::errors_and_warnings()` (debug.rs lines 266-272). -/
def MessageSeverity.errors_and_warnings : MessageSeverity :=
  { MessageSeverity.none with error := true, warning := true }

/-- `MessageType::general()` (debug.rs lines 300-306); named `generalPreset`
here because Lean reserves `MessageType.general` for the field projection. -/
def MessageType.generalPreset : MessageType :=
  { general := true, validation := false, performance := false }

/-- `MessageType::all()` (debug.rs lines 310-316). -/
def MessageType.all : MessageType :=
  { general := true, validation := true, performance := true }

/-- `MessageType::none()` (debug.rs lines 320-326). -/
def MessageType.none : MessageType :=
  { general := false, validation := false, performance := false }

/-- The severity-encoding block of `DebugCallback::new` (debug.rs lines 133-148):
a fold that ORs in one fixed bit constant per `true` field, in source order. -/
def encodeSeverity (severity : MessageSeverity) : Nat :=
  let flags : Nat := 0
  let flags := if severity.information then
    flags ||| vk.DEBUG_UTILS_MESSAGE_SEVERITY_INFO_BIT_EXT else flags
  let flags := if severity.warning then
    flags ||| vk.DEBUG_UTILS_MESSAGE_SEVERITY_WARNING_BIT_EXT else flags
  let flags := if severity.error then
    flags ||| vk.DEBUG_UTILS_MESSAGE_SEVERITY_ERROR_BIT_EXT else flags
  let flags := if severity.verbose then
    flags ||| vk.DEBUG_UTILS_MESSAGE_SEVERITY_VERBOSE_BIT_EXT else flags
  flags

/-- The category-encoding block of `DebugCallback::new` (debug.rs lines 150-162). -/
def encodeType (ty : MessageType) : Nat :=
  let flags : Nat := 0
  let flags := if ty.general then
    flags ||| vk.DEBUG_UTILS_MESSAGE_TYPE_GENERAL_BIT_EXT else flags
  let flags := if ty.validation then
    flags ||| vk.DEBUG_UTILS_MESSAGE_TYPE_VALIDATION_BIT_EXT else flags
  let flags := if ty.performance then
    flags ||| vk.DEBUG_UTILS_MESSAGE_TYPE_PERFORMANCE_BIT_EXT else flags
  flags

/-- The per-bit severity test performed in the trampoline (debug.rs lines 107-113). -/
def decodeSeverity (severity : Nat) : MessageSeverity :=
  { information := severity &&& vk.DEBUG_UTILS_MESSAGE_SEVERITY_INFO_BIT_EXT != 0
    warning := severity &&& vk.DEBUG_UTILS_MESSAGE_SEVERITY_WARNING_BIT_EXT != 0
    error := severity &&& vk.DEBUG_UTILS_MESSAGE_SEVERITY_ERROR_BIT_EXT != 0
    verbose := severity &&& vk.DEBUG_UTILS_MESSAGE_SEVERITY_VERBOSE_BIT_EXT != 0 }

/-- The per-bit category test performed in the trampoline (debug.rs lines 114-118). -/
def decodeType (ty : Nat) : MessageType :=
  { general := ty &&& vk.DEBUG_UTILS_MESSAGE_TYPE_GENERAL_BIT_EXT != 0
    validation := ty &&& vk.DEBUG_UTILS_MESSAGE_TYPE_VALIDATION_BIT_EXT != 0
    performance := ty &&& vk.DEBUG_UTILS_MESSAGE_TYPE_PERFORMANCE_BIT_EXT != 0 }

/-- Is `b` a UTF-8 continuation byte (`0x80 ..= 0xBF`)? -/
def utf8Cont (b : Nat) : Bool := 0x80 ≤ b && b < 0xC0

/-- UTF-8 validity of a byte sequence, per RFC 3629 (well-formed sequences
only: no overlong encodings, no surrogates, no code points above U+10FFFF).
This is the check `CStr::to_str` performs in the Rust standard library. -/
def utf8Valid : List Nat → Bool
  | [] => true
  | b0 :: rest =>
    if b0 < 0x80 then utf8Valid rest
    else if b0 < 0xC2 then false
    else if b0 < 0xE0 then
      match rest with
      | b1 :: rest2 => utf8Cont b1 && utf8Valid rest2
      | [] => false
    else if b0 < 0xF0 then
      match rest with
      | b1 :: b2 :: rest2 =>
        (if b0 = 0xE0 then decide (0xA0 ≤ b1) && decide (b1 < 0xC0)
         else if b0 = 0xED then decide (0x80 ≤ b1) && decide (b1 < 0xA0)
         else utf8Cont b1) && utf8Cont b2 && utf8Valid rest2
      | _ => false
    else if b0 < 0xF5 then
      match rest with
      | b1 :: b2 :: b3 :: rest2 =>
        (if b0 = 0xF0 then decide (0x90 ≤ b1) && decide (b1 < 0xC0)
         else if b0 = 0xF4 then decide (0x80 ≤ b1) && decide (b1 < 0x90)
         else utf8Cont b1) && utf8Cont b2 && utf8Cont b3 && utf8Valid rest2
      | _ => false
    else false

/-- `CStr::from_ptr(p).to_str()`: the bytes of the C string up to (excluding)
its null terminator, checked for UTF-8 validity.  A Rust `&str` is exactly a
byte slice known to be valid UTF-8, so the text view is the byte list itself;
`none` models the `Err(Utf8Error)` case. -/
def cstrToStr (bytes : List Nat) : Option (List Nat) :=
  if utf8Valid bytes then some bytes else none

/-- `vk::DebugUtilsMessengerCallbackDataEXT`, restricted to the two fields the
trampoline reads: each is the byte buffer of a null-terminated C string
(terminator excluded). -/
structure DebugUtilsMessengerCallbackDataEXT where
  pMessageIdName : List Nat
  pMessage : List Nat
deriving DecidableEq

/-- `Message` (debug.rs lines 229-238).  The two borrowed `&str` fields are
represented by their (valid UTF-8) byte lists. -/
structure Message where
  severity : MessageSeverity
  ty : MessageType
  layer_prefix : List Nat
  description : List Nat
deriving DecidableEq

/-- Outcome of one invocation of the user-supplied closure: normal return, or
a Rust panic carrying its message. -/
inductive ClosureResult where
  | ok
  | panic (msg : String)
deriving DecidableEq

/-- Outcome of one invocation of the `extern "system" fn callback` trampoline:
either it returns a `Bool32` status after delivering the recorded list of
messages to the closure, or a panic escapes the trampoline itself (`aborted`,
which in an `extern "system"` frame is fatal). -/
inductive TrampolineOutcome where
  | returns (ret : Nat) (delivered : List Message)
  | aborted (msg : String)
deriving DecidableEq

/-- The trampoline `callback` (debug.rs lines 89-131).  It decodes the two C
strings (`.expect(..)` panics — `aborted` — on invalid UTF-8), builds the
`Message` with the per-bit flag tests, then invokes the stored closure inside
`panic::catch_unwind(panic::AssertUnwindSafe(..))`, whose result is discarded
(`let _ = ..`), and returns `vk::FALSE`. The `delivered` list records the
closure invocations. -/
def callback (severity : Nat) (ty : Nat)
    (callback_data : DebugUtilsMessengerCallbackDataEXT)
    (user_callback : Message → ClosureResult) : TrampolineOutcome :=
  match cstrToStr callback_data.pMessageIdName with
  | Option.none => .aborted "debug callback message not utf-8"
  | Option.some lp =>
    match cstrToStr callback_data.pMessage with
    | Option.none => .aborted "debug callback message not utf-8"
    | Option.some desc =>
      let message : Message :=
        { severity := decodeSeverity severity
          ty := decodeType ty
          layer_prefix := lp
          description := desc }
      let _caught := user_callback message
      .returns vk.FALSE [message]

/-- Modelled from the spec: the instance collaborator's capability surface —
`loaded_extensions().ext_debug_utils` (the capability query) — plus its raw
handle (`internal_object()`).  The `Instance` type itself is outside the
excerpt. -/
structure Instance where
  ext_debug_utils : Bool
  handle : Nat
deriving DecidableEq

/-- `instance.loaded_extensions().ext_debug_utils` as read in debug.rs line 81. -/
def Instance.loadedExtDebugUtils (inst : Instance) : Bool :=
  inst.ext_debug_utils

/-- Modelled from the spec: the structured error produced by the generic
error-code translation layer (`check_errors` / `Error` in the crate root,
outside the excerpt); it carries the non-success native result code. -/
structure Error where
  code : Int
deriving DecidableEq

/-- Modelled from the spec: the generic "translate native result code to
structured error" facility (`check_errors`, outside the excerpt).  The
success code `0` (`VK_SUCCESS`) passes through; any non-success code is
reported as a structured `Error`. -/
def check_errors (result : Int) : Except Error Int :=
  if result = 0 then .ok result else .error { code := result }

/-- A Rust value of type `α` whose computation may instead panic. -/
inductive Panics (α : Type) where
  | value (a : α)
  | panicked (msg : String)

/-- The message of `panic!("unexpected error: {:?}", err)` (debug.rs line 352). -/
def unexpectedErrorMessage (err : Error) : String :=
  "unexpected error: " ++ toString err.code

/-- `DebugCallbackCreationError` (debug.rs lines 331-334): a single variant. -/
inductive DebugCallbackCreationError where
  | MissingExtension
deriving DecidableEq

/-- `impl From<Error> for DebugCallbackCreationError` (debug.rs lines 349-354):
`from` panics for every input instead of producing a value. -/
def DebugCallbackCreationError.fromError (err : Error) :
    Panics DebugCallbackCreationError :=
  .panicked (unexpectedErrorMessage err)

/-- Modelled from the spec: the driver side of the native
`CreateDebugUtilsMessengerEXT` entry point (outside the excerpt): the result
code it returns and the messenger handle it writes through the out pointer. -/
structure Driver where
  createResult : Int
  createdHandle : Nat
deriving DecidableEq

/-- `DebugCallback` (debug.rs lines 62-66): the registration handle.  The
double-boxed closure is stored directly. -/
structure DebugCallback where
  inst : Instance
  debug_report_callback : Nat
  user_callback : Message → ClosureResult

/-- One native call issued through the instance's function table. -/
inductive NativeCall where
  | createMessenger (instanceHandle severityBits tyBits : Nat)
  | destroyMessenger (instanceHandle messenger : Nat)
deriving DecidableEq

/-- Outcome of `DebugCallback::new`: `Ok`, a typed creation error, or a panic
(the `From<Error>` conversion applied by `?` panics on any native failure). -/
inductive NewResult where
  | ok (dc : DebugCallback)
  | err (e : DebugCallbackCreationError)
  | panicked (msg : String)

/-- `DebugCallback::new` (debug.rs lines 72-192), paired with the trace of
native calls it issues.  The extension check precedes everything; on success
the encoded bitmasks are passed to the one `CreateDebugUtilsMessengerEXT`
call, whose non-success result codes reach `From<Error>` via `?` and panic. -/
def DebugCallback.new (inst : Instance) (driver : Driver)
    (severity : MessageSeverity) (ty : MessageType)
    (user_callback : Message → ClosureResult) :
    NewResult × List NativeCall :=
  if !inst.loadedExtDebugUtils then
    (.err DebugCallbackCreationError.MissingExtension, [])
  else
    let severityBits := encodeSeverity severity
    let tyBits := encodeType ty
    let call := NativeCall.createMessenger inst.handle severityBits tyBits
    match check_errors driver.createResult with
    | .error e =>
      match DebugCallbackCreationError.fromError e with
      | .panicked m => (.panicked m, [call])
      | .value e2 => (.err e2, [call])
    | .ok _ =>
      (.ok { inst := inst, debug_report_callback := driver.createdHandle,
             user_callback := user_callback }, [call])

/-- `DebugCallback::errors_and_warnings` (debug.rs lines 198-211): shortcut for
`new` with the errors-and-warnings severity preset and the general category. -/
def DebugCallback.errors_and_warnings (inst : Instance) (driver : Driver)
    (user_callback : Message → ClosureResult) :
    NewResult × List NativeCall :=
  DebugCallback.new inst driver MessageSeverity.errors_and_warnings
    MessageType.generalPreset user_callback

/-- The known severity bits: OR of the four severity constants. -/
def severityKnownMask : Nat :=
  vk.DEBUG_UTILS_MESSAGE_SEVERITY_ERROR_BIT_EXT
    ||| vk.DEBUG_UTILS_MESSAGE_SEVERITY_WARNING_BIT_EXT
    ||| vk.DEBUG_UTILS_MESSAGE_SEVERITY_INFO_BIT_EXT
    ||| vk.DEBUG_UTILS_MESSAGE_SEVERITY_VERBOSE_BIT_EXT

/-- The known category bits: OR of the three category constants. -/
def typeKnownMask : Nat :=
  vk.DEBUG_UTILS_MESSAGE_TYPE_GENERAL_BIT_EXT
    ||| vk.DEBUG_UTILS_MESSAGE_TYPE_VALIDATION_BIT_EXT
    ||| vk.DEBUG_UTILS_MESSAGE_TYPE_PERFORMANCE_BIT_EXT

/-- A well-formed callback-data payload used by concrete instantiations:
`pMessageIdName = "Val"`, `pMessage = "Hello"` (ASCII bytes). -/
def exCallbackData : DebugUtilsMessengerCallbackDataEXT :=
  { pMessageIdName := [86, 97, 108], pMessage := [72, 101, 108, 108, 111] }

/-- A payload whose message-id-name buffer is not valid UTF-8 (lone `0xFF`). -/
def badNameCallbackData : DebugUtilsMessengerCallbackDataEXT :=
  { pMessageIdName := [255], pMessage := [72, 105] }

/-- An instance without the `ext_debug_utils` extension enabled. -/
def instNoExt : Instance := { ext_debug_utils := false, handle := 7 }

/-- An instance with the `ext_debug_utils` extension enabled. -/
def instWithExt : Instance := { ext_debug_utils := true, handle := 7 }

/-- A driver whose create call fails with `VK_ERROR_OUT_OF_HOST_MEMORY` (-1). -/
def failingDriver : Driver := { createResult := -1, createdHandle := 0 }

/-- A driver whose create call succeeds. -/
def okDriver : Driver := { createResult := 0, createdHandle := 42 }

/-- A closure that always panics. -/
def panickyClosure : Message → ClosureResult := fun _ => .panic "boom"

end Vulkano

namespace Vulkano

/-- C1: for every closure and every trampoline invocation with a well-formed
payload, a panic raised by the closure does not propagate out of the
trampoline, and the trampoline returns the fixed "continue" status
`vk::FALSE` unconditionally, whatever the closure's outcome. -/
theorem trampoline_isolates_closure_and_returns_continue
    (sb tb : Nat) (data : DebugUtilsMessengerCallbackDataEXT)
    (cb : Message → ClosureResult)
    (h1 : utf8Valid data.pMessageIdName = true)
    (h2 : utf8Valid data.pMessage = true) :
    callback sb tb data cb =
      TrampolineOutcome.returns vk.FALSE
        [{ severity := decodeSeverity sb, ty := decodeType tb,
           layer_prefix := data.pMessageIdName,
           description := data.pMessage }] := by
  unfold callback cstrToStr
  simp [h1, h2]

/-- C1 witness: a concrete well-formed payload with a panicking closure. -/
theorem trampoline_isolates_closure_and_returns_continue_witness :
    utf8Valid exCallbackData.pMessageIdName = true ∧
    utf8Valid exCallbackData.pMessage = true ∧
    callback 256 1 exCallbackData panickyClosure =
      TrampolineOutcome.returns vk.FALSE
        [{ severity := decodeSeverity 256, ty := decodeType 1,
           layer_prefix := exCallbackData.pMessageIdName,
           description := exCallbackData.pMessage }] :=
  ⟨by decide, by decide,
    trampoline_isolates_closure_and_returns_continue 256 1 exCallbackData
      panickyClosure (by decide) (by decide)⟩

/-- C2: if `ext_debug_utils` is not enabled on the instance, `new` returns
`MissingExtension` for every configuration and closure, and its native-call
trace is empty (the extension check precedes any native call). -/
theorem new_missing_extension_fails_without_native_calls
    (inst : Instance) (driver : Driver) (severity : MessageSeverity)
    (ty : MessageType) (cb : Message → ClosureResult)
    (h : inst.loadedExtDebugUtils = false) :
    DebugCallback.new inst driver severity ty cb =
      (NewResult.err DebugCallbackCreationError.MissingExtension, []) := by
  unfold DebugCallback.new
  simp [h]

/-- C2 witness: a concrete instance without the extension. -/
theorem new_missing_extension_fails_without_native_calls_witness :
    instNoExt.loadedExtDebugUtils = false ∧
    DebugCallback.new instNoExt okDriver MessageSeverity.none MessageType.none
        (fun _ => ClosureResult.ok) =
      (NewResult.err DebugCallbackCreationError.MissingExtension, []) :=
  ⟨by decide,
    new_missing_extension_fails_without_native_calls instNoExt okDriver
      MessageSeverity.none MessageType.none (fun _ => ClosureResult.ok)
      (by decide)⟩

/-- C3: decoding the bitmask produced by encoding recovers the original
severity and type flag sets. -/
theorem decode_encode_roundtrip (s : MessageSeverity) (t : MessageType) :
    decodeSeverity (encodeSeverity s) = s ∧ decodeType (encodeType t) = t := by
  constructor
  · obtain ⟨e, w, i, v⟩ := s
    cases e <;> cases w <;> cases i <;> cases v <;> decide
  · obtain ⟨g, va, p⟩ := t
    cases g <;> cases va <;> cases p <;> decide

/-- C4: invoking the trampoline once with only the warning severity bit (0x100)
and only the general category bit (0x01) on a well-formed payload delivers
exactly one message to the stored closure, with severity
{warning, nothing else} and category {general, nothing else}. -/
theorem trampoline_warning_general_delivers_exactly_one_message
    (cb : Message → ClosureResult) :
    callback 256 1 exCallbackData cb =
      TrampolineOutcome.returns vk.FALSE
        [{ severity := { error := false, warning := true,
                         information := false, verbose := false }
           ty := { general := true, validation := false, performance := false }
           layer_prefix := [86, 97, 108]
           description := [72, 101, 108, 108, 111] }] := by
  have h1 : cstrToStr [86, 97, 108] = some [86, 97, 108] := by decide
  have h2 : cstrToStr [72, 101, 108, 108, 111] =
      some [72, 101, 108, 108, 111] := by decide
  have h3 : decodeSeverity 256 =
      { error := false, warning := true, information := false,
        verbose := false } := by decide
  have h4 : decodeType 1 =
      { general := true, validation := false, performance := false } := by
    decide
  simp [callback, exCallbackData, h1, h2, h3, h4]

/-- C5: with the extension enabled, any non-success result code from the
native create call makes `new` panic (fatal), never yielding a
`DebugCallbackCreationError` value; and `From<Error>` diverges on every
input. -/
theorem new_native_failure_is_fatal
    (inst : Instance) (driver : Driver) (severity : MessageSeverity)
    (ty : MessageType) (cb : Message → ClosureResult)
    (h1 : inst.loadedExtDebugUtils = true) (h2 : driver.createResult ≠ 0) :
    (DebugCallback.new inst driver severity ty cb).1 =
      NewResult.panicked (unexpectedErrorMessage { code := driver.createResult })
      ∧ ∀ e : Error, DebugCallbackCreationError.fromError e =
          Panics.panicked (unexpectedErrorMessage e) := by
  refine ⟨?_, fun e => rfl⟩
  simp [DebugCallback.new, check_errors, DebugCallbackCreationError.fromError,
    h1, h2]

/-- C5 witness: a concrete failing driver (result code -1). -/
theorem new_native_failure_is_fatal_witness :
    instWithExt.loadedExtDebugUtils = true ∧ failingDriver.createResult ≠ 0 ∧
    ((DebugCallback.new instWithExt failingDriver MessageSeverity.none
        MessageType.none (fun _ => ClosureResult.ok)).1 =
      NewResult.panicked
        (unexpectedErrorMessage { code := failingDriver.createResult })
      ∧ ∀ e : Error, DebugCallbackCreationError.fromError e =
          Panics.panicked (unexpectedErrorMessage e)) :=
  ⟨by decide, by decide,
    new_native_failure_is_fatal instWithExt failingDriver MessageSeverity.none
      MessageType.none (fun _ => ClosureResult.ok) (by decide) (by decide)⟩

/-- C6: if either C-string buffer of the payload is not valid UTF-8, the
trampoline panics (fatal in the foreign frame) instead of invoking the
closure with a corrupted message. -/
theorem trampoline_invalid_utf8_aborts
    (sb tb : Nat) (data : DebugUtilsMessengerCallbackDataEXT)
    (cb : Message → ClosureResult)
    (h : utf8Valid data.pMessageIdName = false ∨
         utf8Valid data.pMessage = false) :
    callback sb tb data cb =
      TrampolineOutcome.aborted "debug callback message not utf-8" := by
  unfold callback cstrToStr
  rcases h with h | h
  · simp [h]
  · cases hname : utf8Valid data.pMessageIdName with
    | false => simp [hname]
    | true => simp [hname, h]

/-- C6 witness: a payload whose message-id-name buffer is a lone 0xFF byte. -/
theorem trampoline_invalid_utf8_aborts_witness :
    utf8Valid badNameCallbackData.pMessageIdName = false ∧
    callback 256 1 badNameCallbackData (fun _ => ClosureResult.ok) =
      TrampolineOutcome.aborted "debug callback message not utf-8" :=
  ⟨by decide,
    trampoline_invalid_utf8_aborts 256 1 badNameCallbackData
      (fun _ => ClosureResult.ok) (Or.inl (by decide))⟩

/-- Bits of `c` contained in mask `m` are preserved: if two words agree after
masking with `m` and `c`'s bits all lie in `m`, they agree after masking
with `c`. -/
theorem and_mask_bit (b₁ b₂ m c : Nat) (hm : m &&& c = c)
    (h : b₁ &&& m = b₂ &&& m) : b₁ &&& c = b₂ &&& c := by
  rw [← hm, ← Nat.land_assoc, h, Nat.land_assoc]

/-- C7: decoding is total and determined only by the known bit constants —
two severity (resp. category) bitmasks that agree on the known bits decode
to the same flag set; unknown bits are ignored. -/
theorem decode_ignores_unknown_bits (b₁ b₂ c₁ c₂ : Nat)
    (hs : b₁ &&& severityKnownMask = b₂ &&& severityKnownMask)
    (ht : c₁ &&& typeKnownMask = c₂ &&& typeKnownMask) :
    decodeSeverity b₁ = decodeSeverity b₂ ∧ decodeType c₁ = decodeType c₂ := by
  constructor
  · have hi := and_mask_bit b₁ b₂ severityKnownMask
      vk.DEBUG_UTILS_MESSAGE_SEVERITY_INFO_BIT_EXT (by decide) hs
    have hw := and_mask_bit b₁ b₂ severityKnownMask
      vk.DEBUG_UTILS_MESSAGE_SEVERITY_WARNING_BIT_EXT (by decide) hs
    have he := and_mask_bit b₁ b₂ severityKnownMask
      vk.DEBUG_UTILS_MESSAGE_SEVERITY_ERROR_BIT_EXT (by decide) hs
    have hv := and_mask_bit b₁ b₂ severityKnownMask
      vk.DEBUG_UTILS_MESSAGE_SEVERITY_VERBOSE_BIT_EXT (by decide) hs
    unfold decodeSeverity
    rw [hi, hw, he, hv]
  · have hg := and_mask_bit c₁ c₂ typeKnownMask
      vk.DEBUG_UTILS_MESSAGE_TYPE_GENERAL_BIT_EXT (by decide) ht
    have hva := and_mask_bit c₁ c₂ typeKnownMask
      vk.DEBUG_UTILS_MESSAGE_TYPE_VALIDATION_BIT_EXT (by decide) ht
    have hp := and_mask_bit c₁ c₂ typeKnownMask
      vk.DEBUG_UTILS_MESSAGE_TYPE_PERFORMANCE_BIT_EXT (by decide) ht
    unfold decodeType
    rw [hg, hva, hp]

/-- C7 witness: 65792 = 0x10100 and 256 = 0x100 agree on the known severity
bits; 9 and 1 agree on the known category bits. -/
theorem decode_ignores_unknown_bits_witness :
    (256 : Nat) &&& severityKnownMask = (65792 : Nat) &&& severityKnownMask ∧
    (1 : Nat) &&& typeKnownMask = (9 : Nat) &&& typeKnownMask ∧
    (decodeSeverity 256 = decodeSeverity 65792 ∧ decodeType 1 = decodeType 9) :=
  ⟨by decide, by decide,
    decode_ignores_unknown_bits 256 65792 1 9 (by decide) (by decide)⟩

/-- C8: `errors_and_warnings` is `new` with severity
{error, warning} and category {general}: identical result on every instance,
driver behavior and closure. -/
theorem errors_and_warnings_equiv_new
    (inst : Instance) (driver : Driver) (cb : Message → ClosureResult) :
    DebugCallback.errors_and_warnings inst driver cb =
      DebugCallback.new inst driver
        { error := true, warning := true, information := false,
          verbose := false }
        { general := true, validation := false, performance := false } cb :=
  rfl

/-- C9: the all-false severity and category sets encode to the zero bitmask,
and the zero bitmask decodes to the all-false sets. -/
theorem encode_decode_zero :
    encodeSeverity MessageSeverity.none = 0 ∧
    encodeType MessageType.none = 0 ∧
    decodeSeverity 0 = MessageSeverity.none ∧
    decodeType 0 = MessageType.none := by
  decide

/-- C10: the catch_unwind boundary encloses only the closure invocation: the
trampoline's own panic (escaping the boundary) occurs exactly when one of the
two UTF-8 decodes of message construction fails — never because the closure
failed, and a construction failure is never discarded as a failed closure
invocation. -/
theorem catch_unwind_scope_is_closure_only
    (sb tb : Nat) (data : DebugUtilsMessengerCallbackDataEXT)
    (cb : Message → ClosureResult) :
    callback sb tb data cb =
        TrampolineOutcome.aborted "debug callback message not utf-8" ↔
      (utf8Valid data.pMessageIdName = false ∨
       utf8Valid data.pMessage = false) := by
  unfold callback cstrToStr
  cases hname : utf8Valid data.pMessageIdName <;>
    cases hmsg : utf8Valid data.pMessage <;> simp [hname, hmsg]

end Vulkano
